import Mathlib

/-!
Shallow embedding of the TriMind chat backend: the tool-calling round-trip
in `src/app/api/chat/route.ts` (`POST`, `handleDeepSeekRequest`,
`handleQwenRequest`), the registry merge and lifecycle in the unnamed server
module (`src/unnamed/part_000`: `initializeMCP`, `MCPClient.tools`,
`closeMCPClient`, `getMCPClient`) and the qwen client module
(`src/app/api/mcp/mcp-qwen.ts`: `initializeMCPClient`, `initializeQwenMCP`,
`closeQwenClient`).

Conventions of the embedding:
* JavaScript `undefined`-able fields become `Option`; JS `a || b` on strings
  treats both `undefined` and `""` as falsy, which `jsOrS` reproduces.
* A thrown JS exception is the `.error` case of `Except String`; a
  `try/catch` in the source becomes a `match` that turns `.error` into the
  catch block's value.
* `Promise.all` over the per-call async closures is `List.mapM` into
  `Except`: it yields the list of results in positional (original) order,
  and rejects (short-circuits to `.error`) when any closure rejects —
  matching the observable result of the awaited `Promise.all`.
* The host `JSON.parse` is an explicit parameter `parse : String → Option
  ArgsV` (`none` models the thrown `SyntaxError`); argument values
  themselves are opaque (`ArgsV`).
* The heterogeneous JS record `allTools` holds both ordinary executable
  tools and the provider "chat completion" tools whose `execute` has a
  completely different shape.  The embedding splits it into a uniform map
  `allTools : List (String × ToolImpl)` plus a separate
  `chatTool : Option ChatFn` standing for
  `allTools['deepseek_chat_completion']` / `allTools['qwen_chat_completion']`
  (with `none` embedding absence of that key).
-/

/-- An incoming UI message `{text, sender}` as received by the route. -/
structure InMsg where
  sender : String
  text : String
deriving Repr, DecidableEq

/-- A provider-facing message `{role, content, name?}`. -/
structure ChatMsg where
  role : String
  content : String
  name : Option String := none
deriving Repr, DecidableEq

/-- Opaque JSON argument value handed to a tool executor. -/
structure ArgsV where
  val : Nat
deriving Repr, DecidableEq

/-- The wire form of a tool call's `arguments`: either an already-parsed
object or a JSON string still to be fed to `JSON.parse`. -/
inductive ArgWire where
  | obj (v : ArgsV)
  | str (s : String)
deriving Repr, DecidableEq

/-- The `function` sub-object of an OpenAI-style tool call. -/
structure FnPart where
  name : Option String := none
  arguments : Option ArgWire := none
deriving Repr, DecidableEq

/-- A model-issued tool call as the handlers read it:
`toolCall.name || toolCall.function?.name`,
`toolCall.arguments || toolCall.function?.arguments`. -/
structure ToolCallW where
  name : Option String := none
  arguments : Option ArgWire := none
  function : Option FnPart := none
deriving Repr, DecidableEq

/-- What a tool executor returns: a string, or some other JSON value kept
together with its `JSON.stringify` image. -/
inductive ToolOut where
  | tstr (s : String)
  | tother (stringified : String)
deriving Repr, DecidableEq

/-- A registered ordinary tool (`echo`, `read_file`, ...): its optional
`name` property (the `Tool` objects in this codebase have none), metadata,
and an executor that may throw. -/
structure ToolImpl where
  name : Option String := none
  description : String := ""
  parametersJson : String := "{}"
  execute : Option ArgsV → Except String ToolOut

/-- One element of the `toolParams` array sent to the provider. -/
structure ToolParam where
  name : String
  description : String
  parameters : String
deriving Repr, DecidableEq

/-- Parameters of one provider `execute` call
(`deepseek_chat_completion` / `qwen_chat_completion`). -/
structure GenParams where
  model : String
  messages : List ChatMsg
  max_tokens : Nat
  temperature : ℚ
  tools : Option (List ToolParam) := none
  tool_choice : Option String := none
deriving Repr, DecidableEq

/-- A provider response: a bare string, or an object with optional
`content`, optional `tool_calls`, and its `JSON.stringify` image. -/
inductive GenResult where
  | rstr (s : String)
  | robj (content : Option String) (tool_calls : Option (List ToolCallW))
      (stringified : String)
deriving Repr, DecidableEq

/-- The provider call as a function (the network is an oracle). -/
def ChatFn := GenParams → Except String GenResult

/-- One entry of the awaited `toolResults` array: `{ toolName, result }`. -/
structure ToolEntry where
  toolName : Option String
  result : ToolOut
deriving Repr, DecidableEq

/-- JS `a || b` for string-valued expressions: `undefined` and `""` are
falsy. -/
def jsOrS (a b : Option String) : Option String :=
  match a with
  | some s => if s = "" then b else some s
  | none => b

/-- JS `a || b` for `arguments`: `undefined` and the empty string are
falsy, any object is truthy. -/
def jsOrA (a b : Option ArgWire) : Option ArgWire :=
  match a with
  | some (.str s) => if s = "" then b else some (.str s)
  | some (.obj v) => some (.obj v)
  | none => b

/-- JS template-literal rendering of a possibly-`undefined` string. -/
def showName (n : Option String) : String :=
  match n with
  | some s => s
  | none => "undefined"

/-- Property lookup on a JS object built by listing keys left to right
(later assignments overwrite earlier ones). -/
def jsLookup {α : Type} (l : List (String × α)) (k : String) : Option α :=
  l.foldl (fun acc p => if p.1 = k then some p.2 else acc) none

/-- `typeof toolArgs === 'string' ? JSON.parse(toolArgs) : toolArgs` —
run before the per-call `try`, so a parse failure is an uncaught throw. -/
def argsOf (parse : String → Option ArgsV) (w : Option ArgWire) :
    Except String (Option ArgsV) :=
  match w with
  | some (.str s) =>
      match parse s with
      | some v => .ok (some v)
      | none => .error ("JSON.parse failed: " ++ s)
  | some (.obj v) => .ok (some v)
  | none => .ok none

/-- The effective tool name of a call:
`toolCall.name || toolCall.function?.name`. -/
def effName (tc : ToolCallW) : Option String :=
  jsOrS tc.name (tc.function.bind (·.name))

/-- The effective raw arguments of a call:
`toolCall.arguments || toolCall.function?.arguments`. -/
def effArgs (tc : ToolCallW) : Option ArgWire :=
  jsOrA tc.arguments (tc.function.bind (·.arguments))

/-- The body of one `result.tool_calls.map(async (toolCall) => ...)`
closure: resolve name and arguments, then a `try` block that looks the
tool up, executes it, and converts any throw inside the `try` into an
error `{ toolName, result }` entry.  The `JSON.parse` step sits before
the `try`, so its failure is the `.error` case (an uncaught rejection). -/
def processToolCall (parse : String → Option ArgsV)
    (allTools : List (String × ToolImpl)) (tc : ToolCallW) :
    Except String ToolEntry :=
  let toolName := effName tc
  match argsOf parse (effArgs tc) with
  | .error e => .error e
  | .ok args =>
      .ok <|
        match (match toolName with
               | some n => jsLookup allTools n
               | none => none) with
        | none =>
            { toolName := toolName
              result := .tstr ("Error executing " ++ showName toolName ++
                ": Tool " ++ showName toolName ++ " not found") }
        | some tool =>
            match tool.execute args with
            | .ok r => { toolName := toolName, result := r }
            | .error msg =>
                { toolName := toolName
                  result := .tstr ("Error executing " ++ showName toolName ++
                    ": " ++ msg) }

/-- `await Promise.all(result.tool_calls.map(...))`: all entries in the
original call order, or the batch's rejection. -/
def runBatch (parse : String → Option ArgsV)
    (allTools : List (String × ToolImpl)) (tcs : List ToolCallW) :
    Except String (List ToolEntry) :=
  tcs.mapM (processToolCall parse allTools)

/-- `{ role: 'function', name: tr.toolName, content: typeof tr.result ===
'string' ? tr.result : JSON.stringify(tr.result) }`. -/
def toToolMsg (e : ToolEntry) : ChatMsg :=
  { role := "function"
    name := e.toolName
    content := match e.result with
      | .tstr s => s
      | .tother j => j }

/-- `typeof finalResponse === 'string' ? finalResponse :
(finalResponse.content || JSON.stringify(finalResponse))`. -/
def textOf (r : GenResult) : String :=
  match r with
  | .rstr s => s
  | .robj content _ stringified =>
      match content with
      | some s => if s = "" then stringified else s
      | none => stringified

/-- `result.tool_calls && result.tool_calls.length > 0` on an object
response (an empty array is truthy in JS, so only the length test can
fail there). -/
def hasToolCalls (r : GenResult) : Option (List ToolCallW) :=
  match r with
  | .rstr _ => none
  | .robj _ tool_calls _ =>
      match tool_calls with
      | some l => if l.length > 0 then some l else none
      | none => none

/-- Outcome of a handler: a `{ reply }` response, or a rethrown error that
the route's outer `catch` turns into a 500. -/
inductive HandlerOutcome where
  | reply (s : String)
  | thrown (e : String)
deriving Repr, DecidableEq

/-- A handler run: its outcome together with the provider `execute` calls
it issued, in order. -/
structure HandlerRun where
  outcome : HandlerOutcome
  providerCalls : List GenParams
deriving Repr, DecidableEq

/-- The system message content both handlers prepend (whitespace
normalized to newlines). -/
def toolsSystemPrompt : String :=
  "You have access to the following tools to help users:\n" ++
  "- read_file: Read content from files in the data directory\n" ++
  "- write_file: Write content to files in the data directory\n" ++
  "- fetch_data: Make HTTP requests to external APIs\n" ++
  "- echo: Simple echo functionality\n" ++
  "When a user asks you to access a file or make a web request, " ++
  "USE THESE TOOLS to fulfill their request.\n" ++
  "DO NOT say you can't access files or make web requests."

/-- `[allTools['read_file'], allTools['write_file'], allTools['fetch_data'],
allTools['echo']].filter(Boolean)` followed by the `toolParams` map; the
`Tool` objects carry no `name` property, so `'name' in tool` picks
`'unknown_tool'` exactly when `name` is absent. -/
def buildToolParams (allTools : List (String × ToolImpl)) : List ToolParam :=
  (([jsLookup allTools "read_file", jsLookup allTools "write_file",
     jsLookup allTools "fetch_data", jsLookup allTools "echo"]).filterMap id).map
    (fun t =>
      { name := t.name.getD "unknown_tool"
        description := t.description
        parameters := t.parametersJson })

/-- `handleDeepSeekRequest(messages, client)` from
`src/app/api/chat/route.ts`.  `deepseekPresent` embeds the
`!client || !client.deepseek` guard, `chatTool` embeds
`allTools['deepseek_chat_completion']`. -/
def handleDeepSeekRequest (parse : String → Option ArgsV)
    (deepseekPresent : Bool) (allTools : List (String × ToolImpl))
    (chatTool : Option ChatFn) (messages : List InMsg) : HandlerRun :=
  if deepseekPresent = false then
    { outcome := .thrown
        "DeepSeek MCP client not properly initialized via passed argument"
      providerCalls := [] }
  else
    let formattedMessages := messages.map (fun m =>
      ({ role := if m.sender = "user" then "user" else "assistant"
         content := m.text } : ChatMsg))
    let systemMessage : ChatMsg := { role := "system", content := toolsSystemPrompt }
    let messagesWithSystem := systemMessage :: formattedMessages
    let toolParams := buildToolParams allTools
    match chatTool with
    | none =>
        { outcome := .thrown "DeepSeek chat completion tool not found"
          providerCalls := [] }
    | some chat =>
        let params1 : GenParams :=
          { model := "deepseek-chat", messages := messagesWithSystem
            max_tokens := 4000, temperature := 7/10
            tools := some toolParams, tool_choice := some "auto" }
        match chat params1 with
        | .error e => { outcome := .thrown e, providerCalls := [params1] }
        | .ok result =>
            match hasToolCalls result with
            | none =>
                { outcome := .reply (textOf result), providerCalls := [params1] }
            | some tcs =>
                match runBatch parse allTools tcs with
                | .error e => { outcome := .thrown e, providerCalls := [params1] }
                | .ok toolResults =>
                    let toolResultMessages := toolResults.map toToolMsg
                    let params2 : GenParams :=
                      { model := "deepseek-chat"
                        messages := messagesWithSystem ++ toolResultMessages
                        max_tokens := 4000, temperature := 7/10 }
                    match chat params2 with
                    | .error e =>
                        { outcome := .thrown e
                          providerCalls := [params1, params2] }
                    | .ok finalResult =>
                        { outcome := .reply (textOf finalResult)
                          providerCalls := [params1, params2] }

/-- `handleQwenRequest(messages, client)` from
`src/app/api/chat/route.ts`: textually the DeepSeek handler with the
`client.qwen` guard, `allTools['qwen_chat_completion']` and model
`'qwen-max'`. -/
def handleQwenRequest (parse : String → Option ArgsV)
    (qwenPresent : Bool) (allTools : List (String × ToolImpl))
    (chatTool : Option ChatFn) (messages : List InMsg) : HandlerRun :=
  if qwenPresent = false then
    { outcome := .thrown
        "Qwen MCP client not properly initialized via passed argument"
      providerCalls := [] }
  else
    let formattedMessages := messages.map (fun m =>
      ({ role := if m.sender = "user" then "user" else "assistant"
         content := m.text } : ChatMsg))
    let systemMessage : ChatMsg := { role := "system", content := toolsSystemPrompt }
    let messagesWithSystem := systemMessage :: formattedMessages
    let toolParams := buildToolParams allTools
    match chatTool with
    | none =>
        { outcome := .thrown "Qwen chat completion tool not found"
          providerCalls := [] }
    | some chat =>
        let params1 : GenParams :=
          { model := "qwen-max", messages := messagesWithSystem
            max_tokens := 4000, temperature := 7/10
            tools := some toolParams, tool_choice := some "auto" }
        match chat params1 with
        | .error e => { outcome := .thrown e, providerCalls := [params1] }
        | .ok result =>
            match hasToolCalls result with
            | none =>
                { outcome := .reply (textOf result), providerCalls := [params1] }
            | some tcs =>
                match runBatch parse allTools tcs with
                | .error e => { outcome := .thrown e, providerCalls := [params1] }
                | .ok toolResults =>
                    let toolResultMessages := toolResults.map toToolMsg
                    let params2 : GenParams :=
                      { model := "qwen-max"
                        messages := messagesWithSystem ++ toolResultMessages
                        max_tokens := 4000, temperature := 7/10 }
                    match chat params2 with
                    | .error e =>
                        { outcome := .thrown e
                          providerCalls := [params1, params2] }
                    | .ok finalResult =>
                        { outcome := .reply (textOf finalResult)
                          providerCalls := [params1, params2] }

/-- `messagesWithSystem` as both handlers build it. -/
def withSystem (messages : List InMsg) : List ChatMsg :=
  { role := "system", content := toolsSystemPrompt } ::
    messages.map (fun m =>
      ({ role := if m.sender = "user" then "user" else "assistant"
         content := m.text } : ChatMsg))

/-- The first provider call of the DeepSeek handler. -/
def dsFirstParams (allTools : List (String × ToolImpl)) (messages : List InMsg) :
    GenParams :=
  { model := "deepseek-chat", messages := withSystem messages
    max_tokens := 4000, temperature := 7/10
    tools := some (buildToolParams allTools), tool_choice := some "auto" }

/-- The first provider call of the Qwen handler. -/
def qwFirstParams (allTools : List (String × ToolImpl)) (messages : List InMsg) :
    GenParams :=
  { model := "qwen-max", messages := withSystem messages
    max_tokens := 4000, temperature := 7/10
    tools := some (buildToolParams allTools), tool_choice := some "auto" }

theorem runBatch_nil (p : String → Option ArgsV) (a : List (String × ToolImpl)) :
    runBatch p a [] = .ok [] := rfl

theorem runBatch_cons (p : String → Option ArgsV) (a : List (String × ToolImpl))
    (tc : ToolCallW) (tcs : List ToolCallW) :
    runBatch p a (tc :: tcs) =
      match processToolCall p a tc with
      | .error e => .error e
      | .ok x =>
          match runBatch p a tcs with
          | .error e => .error e
          | .ok xs => .ok (x :: xs) := by
  unfold runBatch
  rw [List.mapM_cons]
  cases h1 : processToolCall p a tc with
  | error e => simp only [h1]; rfl
  | ok x =>
      cases h2 : tcs.mapM (processToolCall p a) with
      | error e =>
          simp only [h1, h2]
          simp [Bind.bind, Except.bind, h2, Functor.map, Except.map]
      | ok xs =>
          simp only [h1, h2]
          simp [Bind.bind, Except.bind, h2, Functor.map, Except.map]
          rfl

theorem runBatch_ok_length {p : String → Option ArgsV}
    {a : List (String × ToolImpl)} {tcs : List ToolCallW}
    {entries : List ToolEntry} (h : runBatch p a tcs = .ok entries) :
    entries.length = tcs.length := by
  induction tcs generalizing entries with
  | nil => rw [runBatch_nil] at h; cases h; rfl
  | cons tc tl ih =>
      rw [runBatch_cons] at h
      cases h1 : processToolCall p a tc with
      | error e => rw [h1] at h; cases h
      | ok x =>
          rw [h1] at h
          cases h2 : runBatch p a tl with
          | error e => rw [h2] at h; cases h
          | ok xs =>
              rw [h2] at h
              cases h
              simpa using ih h2

theorem runBatch_ok_get? {p : String → Option ArgsV}
    {a : List (String × ToolImpl)} {tcs : List ToolCallW}
    {entries : List ToolEntry} (h : runBatch p a tcs = .ok entries) (j : Nat) :
    entries.get? j =
      (tcs.get? j).bind (fun tc => (processToolCall p a tc).toOption) := by
  induction tcs generalizing entries j with
  | nil => rw [runBatch_nil] at h; cases h; cases j <;> rfl
  | cons tc tl ih =>
      rw [runBatch_cons] at h
      cases h1 : processToolCall p a tc with
      | error e => rw [h1] at h; cases h
      | ok x =>
          rw [h1] at h
          cases h2 : runBatch p a tl with
          | error e => rw [h2] at h; cases h
          | ok xs =>
              rw [h2] at h
              cases h
              cases j with
              | zero => simp [h1, Except.toOption]
              | succ n => simpa using ih h2 n

/-- A call whose argument stage succeeds yields an `.ok` entry. -/
theorem processToolCall_ok {p : String → Option ArgsV}
    {a : List (String × ToolImpl)} {tc : ToolCallW} {args : Option ArgsV}
    (h : argsOf p (effArgs tc) = .ok args) :
    ∃ e, processToolCall p a tc = .ok e := by
  unfold processToolCall
  rw [h]
  exact ⟨_, rfl⟩

/-- If every call's argument stage succeeds, the whole batch resolves. -/
theorem runBatch_ok_of_args {p : String → Option ArgsV}
    {a : List (String × ToolImpl)} {tcs : List ToolCallW}
    (h : ∀ tc ∈ tcs, ∃ args, argsOf p (effArgs tc) = .ok args) :
    ∃ entries, runBatch p a tcs = .ok entries := by
  induction tcs with
  | nil => exact ⟨[], rfl⟩
  | cons tc tl ih =>
      obtain ⟨args, hargs⟩ := h tc (List.mem_cons_self tc tl)
      obtain ⟨e, he⟩ := processToolCall_ok (a := a) hargs
      obtain ⟨es, hes⟩ := ih (fun x hx => h x (List.mem_cons_of_mem tc hx))
      exact ⟨e :: es, by rw [runBatch_cons, he, hes]⟩

/-- The second provider call of the DeepSeek handler: tool results folded
in, no `tools`, no `tool_choice`. -/
def dsSecondParams (messages : List InMsg) (entries : List ToolEntry) :
    GenParams :=
  { model := "deepseek-chat"
    messages := withSystem messages ++ entries.map toToolMsg
    max_tokens := 4000, temperature := 7/10 }

/-- The second provider call of the Qwen handler. -/
def qwSecondParams (messages : List InMsg) (entries : List ToolEntry) :
    GenParams :=
  { model := "qwen-max"
    messages := withSystem messages ++ entries.map toToolMsg
    max_tokens := 4000, temperature := 7/10 }

/-- Unfolding of the DeepSeek handler on the tool-calling path. -/
theorem handleDeepSeekRequest_toolPath
    {parse : String → Option ArgsV} {allTools : List (String × ToolImpl)}
    {chat : ChatFn} {messages : List InMsg} {r : GenResult}
    {tcs : List ToolCallW} {entries : List ToolEntry}
    (hd : chat (dsFirstParams allTools messages) = .ok r)
    (htc : hasToolCalls r = some tcs)
    (hbatch : runBatch parse allTools tcs = .ok entries) :
    handleDeepSeekRequest parse true allTools (some chat) messages =
      match chat (dsSecondParams messages entries) with
      | .error e =>
          { outcome := .thrown e
            providerCalls := [dsFirstParams allTools messages,
                              dsSecondParams messages entries] }
      | .ok r2 =>
          { outcome := .reply (textOf r2)
            providerCalls := [dsFirstParams allTools messages,
                              dsSecondParams messages entries] } := by
  simp only [dsFirstParams, withSystem] at hd
  simp only [handleDeepSeekRequest, if_neg (by decide : ¬ (true = false)), hd]
  cases r with
  | rstr s => simp [hasToolCalls] at htc
  | robj c tc? s =>
      cases tc? with
      | none => simp [hasToolCalls] at htc
      | some l =>
          simp only [hasToolCalls] at htc
          by_cases hl : l.length > 0
          · rw [if_pos hl] at htc
            cases htc
            simp only [hasToolCalls, if_pos hl]
            rw [hbatch]
            simp only [dsFirstParams, dsSecondParams, withSystem]
          · rw [if_neg hl] at htc; cases htc

/-- Unfolding of the Qwen handler on the tool-calling path. -/
theorem handleQwenRequest_toolPath
    {parse : String → Option ArgsV} {allTools : List (String × ToolImpl)}
    {chat : ChatFn} {messages : List InMsg} {r : GenResult}
    {tcs : List ToolCallW} {entries : List ToolEntry}
    (hd : chat (qwFirstParams allTools messages) = .ok r)
    (htc : hasToolCalls r = some tcs)
    (hbatch : runBatch parse allTools tcs = .ok entries) :
    handleQwenRequest parse true allTools (some chat) messages =
      match chat (qwSecondParams messages entries) with
      | .error e =>
          { outcome := .thrown e
            providerCalls := [qwFirstParams allTools messages,
                              qwSecondParams messages entries] }
      | .ok r2 =>
          { outcome := .reply (textOf r2)
            providerCalls := [qwFirstParams allTools messages,
                              qwSecondParams messages entries] } := by
  simp only [qwFirstParams, withSystem] at hd
  simp only [handleQwenRequest, if_neg (by decide : ¬ (true = false)), hd]
  cases r with
  | rstr s => simp [hasToolCalls] at htc
  | robj c tc? s =>
      cases tc? with
      | none => simp [hasToolCalls] at htc
      | some l =>
          simp only [hasToolCalls] at htc
          by_cases hl : l.length > 0
          · rw [if_pos hl] at htc
            cases htc
            simp only [hasToolCalls, if_pos hl]
            rw [hbatch]
            simp only [qwFirstParams, qwSecondParams, withSystem]
          · rw [if_neg hl] at htc; cases htc

/-- The `toolName` recorded in an entry is the call's effective name. -/
theorem processToolCall_toolName {p : String → Option ArgsV}
    {a : List (String × ToolImpl)} {tc : ToolCallW} {e : ToolEntry}
    (h : processToolCall p a tc = .ok e) : e.toolName = effName tc := by
  unfold processToolCall at h
  cases ha : argsOf p (effArgs tc) with
  | error msg => simp only [ha] at h; exact Except.noConfusion h
  | ok args =>
      simp only [ha] at h
      cases hlk : (match effName tc with
                   | some n => jsLookup a n
                   | none => none) with
      | none =>
          rw [hlk] at h
          simp only [Except.ok.injEq] at h
          rw [← h]
      | some tool =>
          rw [hlk] at h
          simp only [Except.ok.injEq] at h
          cases hex : tool.execute args with
          | ok r => rw [hex] at h; rw [← h]
          | error msg => rw [hex] at h; rw [← h]

/-- In a resolved batch, the entry at each index is exactly the result of
processing that index's call. -/
theorem runBatch_ok_entry {p : String → Option ArgsV}
    {a : List (String × ToolImpl)} {tcs : List ToolCallW}
    {entries : List ToolEntry} {j : Nat} {tc : ToolCallW}
    (h : runBatch p a tcs = .ok entries) (hj : tcs.get? j = some tc) :
    ∃ e, processToolCall p a tc = .ok e ∧ entries.get? j = some e := by
  have hg := runBatch_ok_get? h j
  rw [hj] at hg
  simp only [Option.some_bind] at hg
  cases hp : processToolCall p a tc with
  | error msg =>
      rw [hp] at hg
      have hlen := runBatch_ok_length h
      have hjlt : j < tcs.length := (List.get?_eq_some.mp hj).1
      simp [Except.toOption] at hg
      omega
  | ok e =>
      rw [hp] at hg
      exact ⟨e, rfl, hg⟩

/-- C1: for every initial model response carrying N ≥ 1 tool calls whose
batch resolves, both handlers append exactly N tool-result messages —
one per call, in the original call order, each tagged with that call's
tool name — to the conversation sent to the second provider call, and the
second call is the next provider call issued (`dsSecondParams` /
`qwSecondParams` carry `withSystem messages ++ entries.map toToolMsg`).
The concurrent fan-out (`Promise.all`) is embedded order-functionally:
concurrency affects timing only, and the positional result order is what
this theorem checks. -/
theorem c1_tool_results_appended_in_order
    (parse : String → Option ArgsV) (allTools : List (String × ToolImpl))
    (chatD chatQ : ChatFn) (messages : List InMsg)
    (tcs : List ToolCallW) (entries : List ToolEntry)
    (cD cQ : Option String) (sD sQ : String)
    (hne : tcs ≠ [])
    (hbatch : runBatch parse allTools tcs = .ok entries)
    (hd : chatD (dsFirstParams allTools messages) =
      .ok (.robj cD (some tcs) sD))
    (hq : chatQ (qwFirstParams allTools messages) =
      .ok (.robj cQ (some tcs) sQ)) :
    entries.length = tcs.length ∧
    (∀ j, (entries.get? j).map (·.toolName) = (tcs.get? j).map effName) ∧
    (handleDeepSeekRequest parse true allTools (some chatD) messages).providerCalls =
      [dsFirstParams allTools messages, dsSecondParams messages entries] ∧
    (handleQwenRequest parse true allTools (some chatQ) messages).providerCalls =
      [qwFirstParams allTools messages, qwSecondParams messages entries] := by
  have hl : tcs.length > 0 := List.length_pos.mpr hne
  have htcD : hasToolCalls (.robj cD (some tcs) sD) = some tcs := by
    simp [hasToolCalls, hl]
  have htcQ : hasToolCalls (.robj cQ (some tcs) sQ) = some tcs := by
    simp [hasToolCalls, hl]
  refine ⟨runBatch_ok_length hbatch, ?_, ?_, ?_⟩
  · intro j
    have hg := runBatch_ok_get? hbatch j
    cases hj : tcs.get? j with
    | none =>
        rw [hj] at hg
        simp only [Option.none_bind] at hg
        rw [hg]
        rfl
    | some tc =>
        obtain ⟨e, hp, he⟩ := runBatch_ok_entry hbatch hj
        rw [he]
        simp only [Option.map_some']
        rw [processToolCall_toolName hp]
  · rw [handleDeepSeekRequest_toolPath hd htcD hbatch]
    cases chatD (dsSecondParams messages entries) <;> rfl
  · rw [handleQwenRequest_toolPath hq htcQ hbatch]
    cases chatQ (qwSecondParams messages entries) <;> rfl

/-- Concrete `JSON.parse` oracle for witnesses: parses exactly the string
`"ok-json"`. -/
def wParse : String → Option ArgsV := fun s =>
  if s = "ok-json" then some ⟨1⟩ else none

/-- Concrete `read_file`-shaped tool for witnesses. -/
def wRead : ToolImpl :=
  { description := "Read content from a file in the data directory"
    execute := fun _ => .ok (.tstr "hello world") }

/-- Concrete `echo`-shaped tool for witnesses. -/
def wEcho : ToolImpl :=
  { description := "Echo the input text"
    execute := fun _ => .ok (.tstr "echoed") }

/-- Concrete executor that throws, like `read_file` on a missing file. -/
def wFail : ToolImpl :=
  { description := "Read content from a file in the data directory"
    execute := fun _ => .error "Failed to read file: File not found: notes.txt" }

/-- Concrete tool map for witnesses. -/
def wTools : List (String × ToolImpl) := [("read_file", wRead), ("echo", wEcho)]

/-- Concrete conversation for witnesses. -/
def wMsgs : List InMsg := [{ sender := "user", text := "Read file notes.txt" }]

/-- Two concrete tool calls: one plain-shaped, one OpenAI-function-shaped
with string arguments. -/
def wCalls : List ToolCallW :=
  [{ name := some "read_file", arguments := some (.obj ⟨0⟩) },
   { function := some { name := some "echo", arguments := some (.str "ok-json") } }]

/-- The entries `runBatch` produces for `wCalls` over `wTools`. -/
def wEntries : List ToolEntry :=
  [{ toolName := some "read_file", result := .tstr "hello world" },
   { toolName := some "echo", result := .tstr "echoed" }]

/-- Constant provider oracle answering every call with `wCalls`. -/
def wChat : ChatFn := fun _ => .ok (.robj none (some wCalls) "resp")

theorem c1_tool_results_appended_in_order_witness :
    (handleDeepSeekRequest wParse true wTools (some wChat) wMsgs).providerCalls =
      [dsFirstParams wTools wMsgs, dsSecondParams wMsgs wEntries] ∧
    (handleQwenRequest wParse true wTools (some wChat) wMsgs).providerCalls =
      [qwFirstParams wTools wMsgs, qwSecondParams wMsgs wEntries] := by
  have h := c1_tool_results_appended_in_order wParse wTools wChat wChat wMsgs
    wCalls wEntries none none "resp" "resp" (by decide) rfl rfl rfl
  exact ⟨h.2.2.1, h.2.2.2⟩

/-- C7: after a tool round, the second provider call carries no tool
schemas (`tools := none`, `tool_choice := none` in `dsSecondParams` /
`qwSecondParams`), exactly two provider calls are issued, and the final
answer is the second response's text — even when that second response
itself carries tool calls (`r2D`, `r2Q` are arbitrary, so in particular
they may request further tools; nothing is executed for them). -/
theorem c7_single_round_trip
    (parse : String → Option ArgsV) (allTools : List (String × ToolImpl))
    (chatD chatQ : ChatFn) (messages : List InMsg)
    (tcs : List ToolCallW) (entries : List ToolEntry)
    (cD cQ : Option String) (sD sQ : String) (r2D r2Q : GenResult)
    (hne : tcs ≠ [])
    (hbatch : runBatch parse allTools tcs = .ok entries)
    (hd : chatD (dsFirstParams allTools messages) =
      .ok (.robj cD (some tcs) sD))
    (hd2 : chatD (dsSecondParams messages entries) = .ok r2D)
    (hq : chatQ (qwFirstParams allTools messages) =
      .ok (.robj cQ (some tcs) sQ))
    (hq2 : chatQ (qwSecondParams messages entries) = .ok r2Q) :
    handleDeepSeekRequest parse true allTools (some chatD) messages =
      { outcome := .reply (textOf r2D)
        providerCalls := [dsFirstParams allTools messages,
                          dsSecondParams messages entries] } ∧
    handleQwenRequest parse true allTools (some chatQ) messages =
      { outcome := .reply (textOf r2Q)
        providerCalls := [qwFirstParams allTools messages,
                          qwSecondParams messages entries] } ∧
    (dsSecondParams messages entries).tools = none ∧
    (dsSecondParams messages entries).tool_choice = none ∧
    (qwSecondParams messages entries).tools = none ∧
    (qwSecondParams messages entries).tool_choice = none := by
  have hl : tcs.length > 0 := List.length_pos.mpr hne
  have htcD : hasToolCalls (.robj cD (some tcs) sD) = some tcs := by
    simp [hasToolCalls, hl]
  have htcQ : hasToolCalls (.robj cQ (some tcs) sQ) = some tcs := by
    simp [hasToolCalls, hl]
  refine ⟨?_, ?_, rfl, rfl, rfl, rfl⟩
  · rw [handleDeepSeekRequest_toolPath hd htcD hbatch, hd2]
  · rw [handleQwenRequest_toolPath hq htcQ hbatch, hq2]

/-- Provider oracle for the C7 witness: answers the first (schema-bearing)
call with tool calls, and the schema-free second call with a final text
that still requests another tool call — which the handler ignores. -/
def wChat2 : ChatFn := fun p =>
  if p.tools.isSome then .ok (.robj none (some wCalls) "resp")
  else .ok (.robj (some "The file contains: hello world.") (some wCalls) "resp2")

theorem c7_single_round_trip_witness :
    handleDeepSeekRequest wParse true wTools (some wChat2) wMsgs =
      { outcome := .reply "The file contains: hello world."
        providerCalls := [dsFirstParams wTools wMsgs,
                          dsSecondParams wMsgs wEntries] } := by
  have h := c7_single_round_trip wParse wTools wChat2 wChat2 wMsgs
    wCalls wEntries none none "resp" "resp"
    (.robj (some "The file contains: hello world.") (some wCalls) "resp2")
    (.robj (some "The file contains: hello world.") (some wCalls) "resp2")
    (by decide) rfl rfl rfl rfl rfl
  exact h.1

/-- Batch for the C2 counterexample: a valid `read_file` call alongside a
call whose `arguments` is a JSON string `JSON.parse` rejects. -/
def cxCalls : List ToolCallW :=
  [{ name := some "read_file", arguments := some (.obj ⟨0⟩) },
   { name := some "echo", arguments := some (.str "not-json") }]

/-- Provider oracle for the C2 counterexample. -/
def cxChat : ChatFn := fun _ => .ok (.robj none (some cxCalls) "resp")

/-- C2 counterexample: with one malformed-JSON-argument call in the
batch, the whole request throws — `JSON.parse` runs before the per-call
`try`, so the rejection reaches `Promise.all`, aborts the batch, discards
the valid sibling's result (no tool message is appended, no second
provider call is issued, `providerCalls` has length 1), and surfaces as
the handler's thrown error.  This contradicts the claim that a malformed
argument is converted into an error ToolResult for that call only. -/
theorem c2_malformed_args_abort_batch :
    handleDeepSeekRequest wParse true wTools (some cxChat) wMsgs =
      { outcome := .thrown "JSON.parse failed: not-json"
        providerCalls := [dsFirstParams wTools wMsgs] } := by
  rfl

/-- C2 (amended): a failure thrown inside a tool's executor is caught at
that call's boundary and becomes an error ToolResult for that call only;
every sibling's entry is exactly what processing that sibling alone
produces, and the batch still resolves — provided no call's JSON-string
arguments fail to parse (the amendment: a `JSON.parse` failure happens
outside the per-call guard and rejects the whole batch, see the
counterexample). -/
theorem c2_executor_failure_isolated
    (parse : String → Option ArgsV) (allTools : List (String × ToolImpl))
    (tcs : List ToolCallW) (i : Nat) (tci : ToolCallW)
    (n : String) (tool : ToolImpl) (args : Option ArgsV) (msg : String)
    (hok : ∀ tc ∈ tcs, ∃ a, argsOf parse (effArgs tc) = .ok a)
    (hi : tcs.get? i = some tci)
    (hname : effName tci = some n)
    (hlook : jsLookup allTools n = some tool)
    (hargs : argsOf parse (effArgs tci) = .ok args)
    (hexec : tool.execute args = .error msg) :
    ∃ entries, runBatch parse allTools tcs = .ok entries ∧
      entries.length = tcs.length ∧
      entries.get? i = some
        { toolName := some n
          result := .tstr ("Error executing " ++ n ++ ": " ++ msg) } ∧
      ∀ j tc, tcs.get? j = some tc →
        entries.get? j = (processToolCall parse allTools tc).toOption := by
  obtain ⟨entries, he⟩ := runBatch_ok_of_args hok
  have hp : processToolCall parse allTools tci = .ok
      { toolName := some n
        result := .tstr ("Error executing " ++ n ++ ": " ++ msg) } := by
    unfold processToolCall
    simp only [hargs, hname, hlook, hexec, showName]
  refine ⟨entries, he, runBatch_ok_length he, ?_, ?_⟩
  · have hg := runBatch_ok_get? he i
    rw [hi] at hg
    simp only [Option.some_bind, hp] at hg
    exact hg
  · intro j tc hj
    have hg := runBatch_ok_get? he j
    rw [hj] at hg
    simpa only [Option.some_bind] using hg

theorem c2_executor_failure_isolated_witness :
    ∃ entries,
      runBatch wParse [("read_file", wFail), ("echo", wEcho)] wCalls =
        .ok entries ∧
      entries.length = wCalls.length ∧
      entries.get? 0 = some
        { toolName := some "read_file"
          result := .tstr ("Error executing read_file: " ++
            "Failed to read file: File not found: notes.txt") } ∧
      ∀ j tc, wCalls.get? j = some tc →
        entries.get? j =
          (processToolCall wParse [("read_file", wFail), ("echo", wEcho)] tc).toOption := by
  exact c2_executor_failure_isolated wParse [("read_file", wFail), ("echo", wEcho)]
    wCalls 0 { name := some "read_file", arguments := some (.obj ⟨0⟩) }
    "read_file" wFail (some ⟨0⟩) "Failed to read file: File not found: notes.txt"
    (by intro tc htc
        simp only [wCalls, List.mem_cons, List.mem_singleton] at htc
        rcases htc with h | h | h
        · exact ⟨some ⟨0⟩, by rw [h]; rfl⟩
        · exact ⟨some ⟨1⟩, by rw [h]; rfl⟩
        · cases h)
    rfl rfl rfl rfl rfl

/-- C3: a tool call whose effective name matches no registered tool
resolves to an error ToolResult (`Tool <name> not found`, produced inside
the per-call `try`) instead of crashing or aborting the batch, and every
sibling call naming a registered tool still executes and contributes its
own result to the resolved batch.  (As in the spec's own wording, the
sibling calls are valid: every call's argument stage succeeds.) -/
theorem c3_unknown_tool_error_result
    (parse : String → Option ArgsV) (allTools : List (String × ToolImpl))
    (tcs : List ToolCallW) (i j : Nat) (tci tcj : ToolCallW)
    (n m : String) (tool : ToolImpl) (argsj : Option ArgsV) (out : ToolOut)
    (hok : ∀ tc ∈ tcs, ∃ a, argsOf parse (effArgs tc) = .ok a)
    (hi : tcs.get? i = some tci)
    (hnamei : effName tci = some n)
    (hlooki : jsLookup allTools n = none)
    (hj : tcs.get? j = some tcj)
    (hnamej : effName tcj = some m)
    (hlookj : jsLookup allTools m = some tool)
    (hargsj : argsOf parse (effArgs tcj) = .ok argsj)
    (hexecj : tool.execute argsj = .ok out) :
    ∃ entries, runBatch parse allTools tcs = .ok entries ∧
      entries.length = tcs.length ∧
      entries.get? i = some
        { toolName := some n
          result := .tstr ("Error executing " ++ n ++ ": Tool " ++ n ++
            " not found") } ∧
      entries.get? j = some { toolName := some m, result := out } := by
  obtain ⟨entries, he⟩ := runBatch_ok_of_args hok
  obtain ⟨ai, hai⟩ := hok tci (List.get?_mem hi)
  have hpi : processToolCall parse allTools tci = .ok
      { toolName := some n
        result := .tstr ("Error executing " ++ n ++ ": Tool " ++ n ++
          " not found") } := by
    unfold processToolCall
    simp only [hai, hnamei, hlooki, showName]
  have hpj : processToolCall parse allTools tcj = .ok
      { toolName := some m, result := out } := by
    unfold processToolCall
    simp only [hargsj, hnamej, hlookj, hexecj]
  refine ⟨entries, he, runBatch_ok_length he, ?_, ?_⟩
  · have hg := runBatch_ok_get? he i
    rw [hi] at hg
    simp only [Option.some_bind, hpi] at hg
    exact hg
  · have hg := runBatch_ok_get? he j
    rw [hj] at hg
    simp only [Option.some_bind, hpj] at hg
    exact hg

/-- Batch for the C3 witness: an unregistered name next to a valid call. -/
def c3Calls : List ToolCallW :=
  [{ name := some "no_such_tool", arguments := some (.obj ⟨0⟩) },
   { name := some "echo", arguments := some (.obj ⟨1⟩) }]

theorem c3_unknown_tool_error_result_witness :
    ∃ entries, runBatch wParse wTools c3Calls = .ok entries ∧
      entries.length = c3Calls.length ∧
      entries.get? 0 = some
        { toolName := some "no_such_tool"
          result := .tstr
            "Error executing no_such_tool: Tool no_such_tool not found" } ∧
      entries.get? 1 = some { toolName := some "echo", result := .tstr "echoed" } := by
  exact c3_unknown_tool_error_result wParse wTools c3Calls 0 1
    { name := some "no_such_tool", arguments := some (.obj ⟨0⟩) }
    { name := some "echo", arguments := some (.obj ⟨1⟩) }
    "no_such_tool" "echo" wEcho (some ⟨1⟩) (.tstr "echoed")
    (by intro tc htc
        simp only [c3Calls, List.mem_cons, List.mem_singleton] at htc
        rcases htc with h | h | h
        · exact ⟨some ⟨0⟩, by rw [h]; rfl⟩
        · exact ⟨some ⟨1⟩, by rw [h]; rfl⟩
        · cases h)
    rfl rfl rfl rfl rfl rfl rfl rfl

/-- The computed key `[geminiThinkingTool.name]` in `MCPClient.tools`: the
`geminiThinkingTool` object declares no `name` property, so the computed
property key stringifies to `"undefined"`. -/
def geminiThinkingKey : String := "undefined"

/-- The `customTools` record built by `MCPClient.tools` in
`src/unnamed/part_000`: the static tools listed first, then the spreads
`...deepseekTools, ...qwenTools`.  In a JS object literal a later
assignment to the same key overwrites the earlier one, which `jsLookup`
reproduces. -/
def customTools (echoTool readFileTool writeFileTool fetchDataTool
    geminiTool : ToolImpl)
    (deepseekTools qwenTools : List (String × ToolImpl)) :
    List (String × ToolImpl) :=
  [("echo", echoTool), ("read_file", readFileTool),
   ("write_file", writeFileTool), ("fetch_data", fetchDataTool),
   (geminiThinkingKey, geminiTool)] ++ deepseekTools ++ qwenTools

theorem jsLookup_go {α : Type} (k : String) (b : List (String × α))
    (acc : Option α) :
    b.foldl (fun acc p => if p.1 = k then some p.2 else acc) acc =
      match jsLookup b k with
      | some v => some v
      | none => acc := by
  induction b generalizing acc with
  | nil => rfl
  | cons p l ih =>
      show l.foldl _ (if p.1 = k then some p.2 else acc) = _
      rw [ih]
      have : jsLookup (p :: l) k =
          match jsLookup l k with
          | some v => some v
          | none => if p.1 = k then some p.2 else none := by
        show l.foldl _ (if p.1 = k then some p.2 else none) = _
        rw [ih]
      rw [this]
      cases jsLookup l k with
      | some v => rfl
      | none => by_cases hp : p.1 = k <;> simp [hp]

theorem jsLookup_append {α : Type} (a b : List (String × α)) (k : String) :
    jsLookup (a ++ b) k =
      match jsLookup b k with
      | some v => some v
      | none => jsLookup a k := by
  show (a ++ b).foldl _ none = _
  rw [List.foldl_append]
  exact jsLookup_go k b _

/-- C6 (amended): on a name collision across merged sources the entry
from the LATEST-registered source wins (object-spread overwrite order:
static tools, then `...deepseekTools`, then `...qwenTools`), and the
collision never aborts registry construction (`customTools` is total and
the merged record is returned). -/
theorem c6_merge_latest_wins
    (echoTool readFileTool writeFileTool fetchDataTool geminiTool : ToolImpl)
    (deepseekTools qwenTools : List (String × ToolImpl))
    (k : String) (t : ToolImpl) :
    (jsLookup qwenTools k = some t →
      jsLookup (customTools echoTool readFileTool writeFileTool fetchDataTool
        geminiTool deepseekTools qwenTools) k = some t) ∧
    (jsLookup qwenTools k = none → jsLookup deepseekTools k = some t →
      jsLookup (customTools echoTool readFileTool writeFileTool fetchDataTool
        geminiTool deepseekTools qwenTools) k = some t) ∧
    (jsLookup qwenTools k = none → jsLookup deepseekTools k = none →
      jsLookup (customTools echoTool readFileTool writeFileTool fetchDataTool
        geminiTool deepseekTools qwenTools) k =
        jsLookup [("echo", echoTool), ("read_file", readFileTool),
          ("write_file", writeFileTool), ("fetch_data", fetchDataTool),
          (geminiThinkingKey, geminiTool)] k) := by
  unfold customTools
  rw [List.append_assoc, jsLookup_append, jsLookup_append]
  refine ⟨?_, ?_, ?_⟩
  · intro hq
    rw [hq]
  · intro hq hd
    rw [hq, hd]
  · intro hq hd
    rw [hq, hd]

/-- C6 counterexample: the static source registers `echo` first and a
later source (`deepseekTools`) registers the same name; the resulting
lookup yields the LATER source's entry, not the earliest-registered one,
refuting "earliest registration wins".  The two tools are distinguished
by their `description`, and construction does not abort. -/
theorem c6_earliest_wins_counterexample :
    (jsLookup (customTools wEcho wRead wRead wRead wRead
        [("echo", wFail)] []) "echo").map (fun t => t.description) =
      some wFail.description ∧
    wFail.description ≠ wEcho.description := by
  constructor
  · rfl
  · decide

theorem c6_merge_latest_wins_witness :
    jsLookup (customTools wEcho wRead wRead wRead wRead
      [("echo", wFail)] []) "echo" = some wFail := by
  exact (c6_merge_latest_wins wEcho wRead wRead wRead wRead
    [("echo", wFail)] [] "echo" wFail).2.1 rfl rfl

/-- Shared module state behind `getMCPClient` in `src/unnamed/part_000`
(lines 511-519): the `mcpClientInstance` variable plus an instrumentation
counter of completed `initializeMCP()` runs.  Distinct runs build distinct
client records, so the embedding identifies each constructed client by
its construction sequence number. -/
structure GetterState where
  mcpClientInstance : Option Nat := none
  initCount : Nat := 0
deriving Repr, DecidableEq

/-- Program counter of one caller of `getMCPClient`:
`started` = about to evaluate `if (!mcpClientInstance)`;
`awaitingInit` = passed the test and suspended at `await initializeMCP()`;
`finished r` = returned client `r`. -/
inductive CallerPC where
  | started
  | awaitingInit
  | finished (ret : Nat)
deriving Repr, DecidableEq

/-- A set of concurrent `getMCPClient` callers over the shared state. -/
structure RaceWorld where
  shared : GetterState
  callers : List CallerPC
deriving Repr, DecidableEq

/-- One atomic step of caller `i`.  From `started`, the guard
`if (!mcpClientInstance)` runs: a set instance returns immediately, an
unset one enters the body and suspends at the `await` (the only
suspension point).  From `awaitingInit`, the awaited `initializeMCP()`
completes with a fresh client; the assignment
`mcpClientInstance = await initializeMCP()` and the subsequent
`return mcpClientInstance` read-back run with no intervening suspension,
hence in one atomic step. -/
def raceStep (w : RaceWorld) (i : Nat) : RaceWorld :=
  match w.callers.get? i with
  | none => w
  | some pc =>
      match pc with
      | .started =>
          match w.shared.mcpClientInstance with
          | some c => { w with callers := w.callers.set i (.finished c) }
          | none => { w with callers := w.callers.set i .awaitingInit }
      | .awaitingInit =>
          let fresh := w.shared.initCount
          { shared := { mcpClientInstance := some fresh
                        initCount := w.shared.initCount + 1 }
            callers := w.callers.set i (.finished fresh) }
      | .finished _ => w

/-- Interleaved execution under a schedule of caller indices. -/
def raceRun (w : RaceWorld) (sched : List Nat) : RaceWorld :=
  sched.foldl raceStep w

/-- `M` callers, none started, client unset. -/
def initialWorld (M : Nat) : RaceWorld :=
  { shared := {}, callers := List.replicate M .started }

/-- C4 counterexample: two concurrent first callers of `getMCPClient`
under the interleaving guard₀, guard₁, init₀, init₁ — both pass the unset
check before either construction completes.  `initializeMCP` runs twice
(`initCount = 2`), and the two callers return distinct client instances
(`finished 0` vs `finished 1`), refuting "the underlying construction
runs exactly once, and all M callers receive the same client instance":
there is no single-flight guard around the `await`. -/
theorem c4_race_double_construction :
    (raceRun (initialWorld 2) [0, 1, 0, 1]).shared.initCount = 2 ∧
    (raceRun (initialWorld 2) [0, 1, 0, 1]).callers =
      [.finished 0, .finished 1] := by
  constructor <;> rfl

theorem raceRun_stable (w : RaceWorld) (sched : List Nat)
    (hs : w.shared = { mcpClientInstance := some 0, initCount := 1 })
    (hc : ∀ pc ∈ w.callers, pc = .finished 0 ∨ pc = .started) :
    (raceRun w sched).shared =
      { mcpClientInstance := some 0, initCount := 1 } ∧
    ∀ pc ∈ (raceRun w sched).callers, pc = .finished 0 ∨ pc = .started := by
  induction sched generalizing w with
  | nil => exact ⟨hs, hc⟩
  | cons i rest ih =>
      have hstep : raceRun w (i :: rest) = raceRun (raceStep w i) rest := rfl
      rw [hstep]
      apply ih
      · unfold raceStep
        cases hget : w.callers.get? i with
        | none => exact hs
        | some pc =>
            rcases hc pc (List.get?_mem hget) with hpc | hpc
            · rw [hpc]; exact hs
            · rw [hpc, hs]
      · unfold raceStep
        cases hget : w.callers.get? i with
        | none => exact hc
        | some pc =>
            rcases hc pc (List.get?_mem hget) with hpc | hpc
            · rw [hpc]; exact hc
            · rw [hpc, hs]
              intro pc' hpc'
              rcases List.mem_or_eq_of_mem_set hpc' with h | h
              · exact hc pc' h
              · exact Or.inl h

/-- C4 (amended): `getMCPClient` is a plain check-then-act memoization
with an `await` between check and assignment; only when the first
invocation runs to completion before any other caller starts (schedule
`[0, 0] ++ rest`, `rest` arbitrary) is `initializeMCP` guaranteed to run
exactly once, with every caller that completes receiving that one client
(`finished 0`).  Interleaved first callers can construct once each and
observe distinct clients (see the counterexample). -/
theorem c4_sequential_single_construction (M : Nat) (rest : List Nat) :
    (raceRun (initialWorld (M + 1)) ([0, 0] ++ rest)).shared.initCount = 1 ∧
    ∀ pc ∈ (raceRun (initialWorld (M + 1)) ([0, 0] ++ rest)).callers,
      pc = .finished 0 ∨ pc = .started := by
  have hsplit : raceRun (initialWorld (M + 1)) ([0, 0] ++ rest) =
      raceRun (raceRun (initialWorld (M + 1)) [0, 0]) rest := by
    unfold raceRun
    rw [List.foldl_append]
  have hw1 : raceRun (initialWorld (M + 1)) [0, 0] =
      { shared := { mcpClientInstance := some 0, initCount := 1 }
        callers := .finished 0 :: List.replicate M .started } := rfl
  rw [hsplit, hw1]
  have h := raceRun_stable
    { shared := { mcpClientInstance := some 0, initCount := 1 }
      callers := .finished 0 :: List.replicate M .started } rest rfl
    (by intro pc hpc
        rcases List.mem_cons.mp hpc with h | h
        · exact Or.inl h
        · exact Or.inr (List.eq_of_mem_replicate h))
  exact ⟨by rw [h.1], h.2⟩

/-- Module state of `src/app/api/mcp/mcp-qwen.ts`: the module-level
`mcpClient` reference for the stdio transport, plus an instrumentation
counter of completed `experimental_createMCPClient` constructions. -/
structure QwenMod where
  mcpClient : Option Nat := none
  constructions : Nat := 0
deriving Repr, DecidableEq

/-- The `QwenMCPClient` record (`{ models }`). -/
structure QwenMCPClient where
  models : List String
deriving Repr, DecidableEq

/-- `initializeMCPClient()` from `mcp-qwen.ts` (lines 50-122): return the
memoized stdio client if set, otherwise construct through the external
`create` oracle (`experimental_createMCPClient` over the spawned python
server); a construction failure is rethrown with the
`MCP Client Initialization Failed:` prefix. -/
def initializeMCPClient (create : Except String Nat) (s : QwenMod) :
    QwenMod × Except String Nat :=
  match s.mcpClient with
  | some c => (s, .ok c)
  | none =>
      match create with
      | .ok c =>
          ({ mcpClient := some c, constructions := s.constructions + 1 }, .ok c)
      | .error e => (s, .error ("MCP Client Initialization Failed: " ++ e))

/-- `initializeQwenMCP()` from `mcp-qwen.ts` (lines 128-147).  Note the
source function declares NO credential parameter (although its caller in
`src/unnamed/part_000` passes one): it builds the `{ models }` record and
initializes the stdio client; any throw is caught and `null` returned —
the credential plays no part. -/
def initializeQwenMCP (create : Except String Nat) (s : QwenMod) :
    QwenMod × Option QwenMCPClient :=
  let res := initializeMCPClient create s
  match res.2 with
  | .ok _ =>
      (res.1, some { models := ["qwen-plus", "qwen-max", "qwen-turbo", "qwen"] })
  | .error _ => (res.1, none)

/-- The `DeepSeekMCPClient` record. -/
structure DeepSeekMCPClient where
  apiKey : String
  baseUrl : String
  models : List String
deriving Repr, DecidableEq

/-- `initializeDeepSeekMCP(apiKey?)` from `mcp-deepseek.ts`: a missing
key logs and returns `null`; otherwise the client record is built and
`testConnection` runs (the network is the `testConn` oracle, returning
the model list from `/models` when the response carries one); a thrown
connection error yields `null`. -/
def initializeDeepSeekMCP (apiKey : Option String)
    (testConn : Except String (Option (List String))) :
    Option DeepSeekMCPClient :=
  match apiKey with
  | none => none
  | some k =>
      match testConn with
      | .ok models? =>
          some { apiKey := k, baseUrl := "https://api.deepseek.com/v1"
                 models := models?.getD ["deepseek-chat", "deepseek-reasoner"] }
      | .error _ => none

/-- The `MCPClient` record assembled by `initializeMCP` (without the
closures `tools`/`close`, embedded separately as `customTools` and
`closeMCPClient`). -/
structure MCPClientE where
  deepseek : Option DeepSeekMCPClient
  qwen : Option QwenMCPClient
deriving Repr, DecidableEq

/-- `initializeMCP()` from `src/unnamed/part_000` (lines 208-463):
initialize both provider clients from the environment's credentials and
return the composite record.  The source passes `qwenApiKey` as an
argument to `initializeQwenMCP`, whose declaration takes no parameter —
the credential is accepted here only to record that it is ignored. -/
def initializeMCP (deepseekApiKey qwenApiKey : Option String)
    (dsTestConn : Except String (Option (List String)))
    (qwCreate : Except String Nat) (s : QwenMod) : QwenMod × MCPClientE :=
  let deepseek := initializeDeepSeekMCP deepseekApiKey dsTestConn
  let q := initializeQwenMCP qwCreate s
  let _ := qwenApiKey
  (q.1, { deepseek := deepseek, qwen := q.2 })

/-- C5: the code ignores the qwen credential.  Failing input:
`QWEN_API_KEY` unset (`none`) while the stdio MCP spawn succeeds
(`.ok 0`).  `initializeQwenMCP` — contrary to its DeepSeek twin, which
returns `null` for a missing key — succeeds and the provider is marked
available, so a `"qwen"` request passes the `!client.qwen` guard and the
orchestrator runs in full: tools are fetched, the tool batch executes,
and two provider calls are issued, instead of failing fast with
`ProviderUnavailable` before the orchestrator. -/
theorem c5_missing_credential_still_initializes :
    ((initializeMCP (some "ds-key") none (.ok none) (.ok 0) {}).2.qwen =
      some { models := ["qwen-plus", "qwen-max", "qwen-turbo", "qwen"] }) ∧
    (handleQwenRequest wParse
        (initializeMCP (some "ds-key") none (.ok none) (.ok 0) {}).2.qwen.isSome
        wTools (some wChat) wMsgs).providerCalls =
      [qwFirstParams wTools wMsgs, qwSecondParams wMsgs wEntries] := by
  constructor <;> rfl

/-- `closeDeepSeekClient` from `mcp-deepseek.ts`: logs only, touches no
state, cannot throw. -/
def closeDeepSeekClient (_client : Option DeepSeekMCPClient) : Unit := ()

/-- `closeQwenClient` from `mcp-qwen.ts` (lines 410-425): early return if
the module-level `mcpClient` is unset; otherwise `await mcpClient.close()`
through the `closeImpl` oracle inside a `try` — on success the reference
is cleared, on a thrown close error the `catch` swallows it (logged, not
rethrown) and the assignment `mcpClient = null` is skipped, so the
reference stays.  Nothing is ever thrown to the caller. -/
def closeQwenClient (closeImpl : Nat → Except String Unit) (s : QwenMod) :
    QwenMod :=
  match s.mcpClient with
  | none => s
  | some c =>
      match closeImpl c with
      | .ok _ => { s with mcpClient := none }
      | .error _ => s

/-- `closeMCPClient(client)` from `src/unnamed/part_000` (lines 472-488):
inside one `try/catch` (errors logged, never rethrown), close the
DeepSeek client when present (a no-op) and then the Qwen client when
present.  Only the qwen module state can change. -/
def closeMCPClient (client : MCPClientE)
    (closeImpl : Nat → Except String Unit) (s : QwenMod) : QwenMod :=
  let _ := match client.deepseek with
           | some d => closeDeepSeekClient (some d)
           | none => ()
  match client.qwen with
  | some _ => closeQwenClient closeImpl s
  | none => s

/-- C8: shutdown is idempotent and never reconstructs.  For every client
record, every deterministic close behaviour (including one that throws —
the `try/catch` layers in `closeQwenClient` and `closeMCPClient` swallow
it, so no error ever reaches the shutdown caller, which is why the
embedded close functions return plain state), and every module state:
running `closeMCPClient` a second time leaves the state of the first run
unchanged, and neither run performs any construction
(`constructions` is untouched — clients are not rebuilt). -/
theorem c8_shutdown_idempotent (client : MCPClientE)
    (closeImpl : Nat → Except String Unit) (s : QwenMod) :
    closeMCPClient client closeImpl (closeMCPClient client closeImpl s) =
      closeMCPClient client closeImpl s ∧
    (closeMCPClient client closeImpl s).constructions = s.constructions ∧
    (closeMCPClient client closeImpl
        (closeMCPClient client closeImpl s)).constructions =
      s.constructions := by
  unfold closeMCPClient closeQwenClient
  cases client.qwen with
  | none => exact ⟨rfl, rfl, rfl⟩
  | some q =>
      cases hm : s.mcpClient with
      | none => simp [hm]
      | some c =>
          cases hc : closeImpl c with
          | ok u => simp [hm, hc]
          | error e => simp [hm, hc]

/-- The `messages` field of the parsed request body as the route's guard
sees it: absent/falsy, present but not an array, or an array. -/
inductive MessagesField where
  | absent
  | notArray (stringified : String)
  | arr (l : List InMsg)
deriving Repr, DecidableEq

/-- The parsed request body `{ messages, model }`. -/
structure ReqBody where
  messages : MessagesField
  model : Option String
deriving Repr, DecidableEq

/-- Outcome of the handlers outside the tool round-trip
(`qwen_direct`, `claude`, `gemini_thinking`, and the unknown-model
default): they talk to external APIs directly, so their behaviour is an
oracle. -/
inductive OtherOut where
  | resp (status : Nat) (body : String)
  | threw (e : String)
deriving Repr, DecidableEq

/-- Everything `POST` reaches into that is not the request body: the
memoized MCP client's provider flags and tool map, the `JSON.parse`
host function, the provider chat-completion tools, and the non-MCP
handlers. -/
structure RouteEnv where
  parse : String → Option ArgsV
  deepseekPresent : Bool
  qwenPresent : Bool
  allTools : List (String × ToolImpl)
  deepseekChat : Option ChatFn
  qwenChat : Option ChatFn
  other : String → OtherOut

/-- Observable result of one `POST` invocation: HTTP status, the
`{ error }` or `{ reply }` payload, whether `getMCPClient()` was reached,
and the provider calls issued. -/
structure PostResult where
  status : Nat
  errorMsg : Option String
  reply : Option String
  mcpRequested : Bool
  providerCalls : List GenParams
deriving Repr, DecidableEq

/-- How `POST` surfaces a handler run: a `{ reply }` 200 response, or —
when the handler rethrows — the outer `catch`'s 500
`{ error: 'Internal server error' }`. -/
def wrapHandler (run : HandlerRun) : PostResult :=
  match run.outcome with
  | .reply s =>
      { status := 200, errorMsg := none, reply := some s
        mcpRequested := true, providerCalls := run.providerCalls }
  | .thrown _ =>
      { status := 500, errorMsg := some "Internal server error", reply := none
        mcpRequested := true, providerCalls := run.providerCalls }

/-- The 400 response of the messages guard. -/
def invalidMessagesResponse : PostResult :=
  { status := 400, errorMsg := some "Invalid messages format", reply := none
    mcpRequested := false, providerCalls := [] }

/-- `POST` from `src/app/api/chat/route.ts` (lines 7-51): parse the body,
run the `!messages || !Array.isArray(messages) || messages.length === 0`
guard, then `await getMCPClient()` and switch on `model.toLowerCase()`
(`model === undefined` makes `toLowerCase` throw, caught by the outer
`catch` as a 500). -/
def POST (env : RouteEnv) (body : ReqBody) : PostResult :=
  match body.messages with
  | .absent => invalidMessagesResponse
  | .notArray _ => invalidMessagesResponse
  | .arr l =>
      if l.length = 0 then invalidMessagesResponse
      else
        match body.model with
        | none =>
            { status := 500, errorMsg := some "Internal server error"
              reply := none, mcpRequested := true, providerCalls := [] }
        | some m =>
            if m.toLower = "deepseek" then
              wrapHandler (handleDeepSeekRequest env.parse env.deepseekPresent
                env.allTools env.deepseekChat l)
            else if m.toLower = "qwen" then
              wrapHandler (handleQwenRequest env.parse env.qwenPresent
                env.allTools env.qwenChat l)
            else
              match env.other m.toLower with
              | .resp st b =>
                  { status := st, errorMsg := none, reply := some b
                    mcpRequested := true, providerCalls := [] }
              | .threw _ =>
                  { status := 500, errorMsg := some "Internal server error"
                    reply := none, mcpRequested := true, providerCalls := [] }

/-- C9: a body whose `messages` is missing, not an array, or an empty
array gets the 400 `Invalid messages format` response before
`getMCPClient()` runs and before any provider is contacted
(`mcpRequested = false`, `providerCalls = []`), for every environment
and every `model` value. -/
theorem c9_invalid_messages_400 (env : RouteEnv) (body : ReqBody)
    (h : body.messages = .absent ∨ (∃ s, body.messages = .notArray s) ∨
      body.messages = .arr []) :
    POST env body = invalidMessagesResponse := by
  rcases h with h | ⟨s, h⟩ | h <;> simp [POST, h]

/-- Concrete environment for the C9 witness. -/
def wEnv : RouteEnv :=
  { parse := wParse, deepseekPresent := true, qwenPresent := true
    allTools := wTools, deepseekChat := some wChat, qwenChat := some wChat
    other := fun _ => .resp 200 "ok" }

theorem c9_invalid_messages_400_witness :
    POST wEnv { messages := .arr [], model := some "deepseek" } =
      invalidMessagesResponse := by
  exact c9_invalid_messages_400 wEnv
    { messages := .arr [], model := some "deepseek" } (Or.inr (Or.inr rfl))
